import Mathlib

/-!
Verification of the session-controller / storage subsystem of the
markdown-to-html editor (src/js/app.js, src/js/storage.js, src/js/markdown.js).

The JavaScript modules are shallowly embedded as pure Lean functions.
IndexedDB records become `DocRecord`; the `documents` object store becomes a
`List DocRecord` (keys are unique, `autoIncrement` is modelled by a `nextId`
counter); `Date.now()` values are passed in as explicit `now : Nat` arguments;
a rejected store call is injected through explicit boolean flags.  The DOM
editor / modal elements referenced by app.js become fields of `AppState`.
-/

/-- A record of the `documents` object store
    (see storage.js `saveDocument`: `{ title, content, createdAt, updatedAt }`
    plus the auto-increment key `id`). -/
structure DocRecord where
  id : Nat
  title : String
  content : String
  createdAt : Nat
  updatedAt : Nat
deriving DecidableEq, Repr

/-- The JavaScript sort comparator `(a, b) => b.updatedAt - a.updatedAt`
    (storage.js `getAllDocuments` / `searchDocuments`): `a` is placed no later
    than `b` exactly when `b.updatedAt ≤ a.updatedAt`. -/
def updatedAtDesc (a b : DocRecord) : Prop := b.updatedAt ≤ a.updatedAt

instance : DecidableRel updatedAtDesc := fun a b =>
  inferInstanceAs (Decidable (b.updatedAt ≤ a.updatedAt))

instance : IsTotal DocRecord updatedAtDesc :=
  ⟨fun a b => (Nat.le_total b.updatedAt a.updatedAt).imp id id⟩

instance : IsTrans DocRecord updatedAtDesc :=
  ⟨fun _ _ _ hab hbc => Nat.le_trans hbc hab⟩

/-- storage.js `getAllDocuments`: `getAll()` followed by the stable
    `docs.sort((a, b) => b.updatedAt - a.updatedAt)` (ECMAScript sorts are
    stable, so insertion sort is a faithful model). -/
def getAllDocuments (docs : List DocRecord) : List DocRecord :=
  docs.insertionSort updatedAtDesc

/-- The filter predicate of storage.js `searchDocuments`:
    `doc.title.toLowerCase().includes(query.toLowerCase())`. -/
def titleMatches (query : String) (d : DocRecord) : Bool :=
  decide ((query.toLower).data <:+: (d.title.toLower).data)

/-- storage.js `searchDocuments`: `getAll()`, filter by case-insensitive title
    substring, then the same `updatedAt`-descending stable sort. -/
def searchDocuments (query : String) (docs : List DocRecord) : List DocRecord :=
  (docs.filter (titleMatches query)).insertionSort updatedAtDesc

/-- `store.get(id)` on the `documents` store (unique key path `id`). -/
def findDoc (docs : List DocRecord) (id : Nat) : Option DocRecord :=
  docs.find? (fun d => d.id == id)

/-- The mutation `updateDocument` applies to the fetched record:
    `doc.title = title; doc.content = content; doc.updatedAt = Date.now()`
    (`id` and `createdAt` are untouched); records under other keys are not
    written. -/
def updRecord (id : Nat) (title content : String) (now : Nat)
    (d : DocRecord) : DocRecord :=
  if d.id == id then
    { d with title := title, content := content, updatedAt := now }
  else d

/-- The mutation `renameDocument` applies to the fetched record:
    `doc.title = newTitle; doc.updatedAt = Date.now()`. -/
def renameRecord (id : Nat) (newTitle : String) (now : Nat)
    (d : DocRecord) : DocRecord :=
  if d.id == id then { d with title := newTitle, updatedAt := now } else d

/-- storage.js `updateDocument`: `get(id)`; reject `Document not found` when
    absent (no `put` is issued, the store is unchanged); otherwise overwrite
    `title`, `content`, `updatedAt` and `put` the record back under the same
    key. -/
def updateDocument (id : Nat) (title content : String) (now : Nat)
    (docs : List DocRecord) : Except String (List DocRecord) :=
  match findDoc docs id with
  | none => .error "Document not found"
  | some _ => .ok (docs.map (updRecord id title content now))

/-- storage.js `renameDocument`: `get(id)`; reject `Document not found` when
    absent (store unchanged); otherwise overwrite `title`, `updatedAt` and
    `put` the record back under the same key. -/
def renameDocument (id : Nat) (newTitle : String) (now : Nat)
    (docs : List DocRecord) : Except String (List DocRecord) :=
  match findDoc docs id with
  | none => .error "Document not found"
  | some _ => .ok (docs.map (renameRecord id newTitle now))

/-- storage.js `deleteDocument`: `store.delete(id)` removes the record with
    that key (a no-op when absent). -/
def deleteDocumentStore (id : Nat) (docs : List DocRecord) : List DocRecord :=
  docs.filter (fun d => !(d.id == id))

/-- The names returned by storage.js's revealing-module `return { ... }`
    block (its public API, storage.js lines 259-274).  Note that
    `cancelPendingAutosave` is NOT among them, although app.js calls it and
    the repository's race-condition fix document specifies it. -/
def storagePublicAPI : List String :=
  ["init", "load", "debouncedSave", "saveDocument", "updateDocument",
   "getDocument", "getAllDocuments", "deleteDocument", "renameDocument",
   "searchDocuments"]

/-! ## Session controller state (app.js module-level variables and DOM) -/

/-- The value of `pendingOpenDoc` when non-null: the string `'new'` or the
    document object passed to `requestOpenDocument` (app.js line 54). -/
inductive PendingTarget where
  | newDoc
  | doc (d : DocRecord)
deriving DecidableEq, Repr

/-- A JavaScript exception escaping a handler.  The only one arising in the
    modelled code is `TypeError: Storage.<member> is not a function`, thrown
    when app.js invokes a member missing from storage.js's public API. -/
inductive JsError where
  | typeErrorNotAFunction (member : String)
deriving DecidableEq, Repr

/-- The session controller's mutable state: app.js module variables
    (`currentDocId`, `lastSavedContent`, `pendingOpenDoc`, `saveBusy`,
    `confirmBusy`), the DOM pieces the handlers read/write (`editor.value`,
    modal visibility, the save-modal title input, the `disabled` state of the
    modal button groups, sidebar visibility), and the storage.js side
    (the `documents` store with its auto-increment key counter, the autosave
    slot, and the pending debounced-autosave timer with its captured
    content).  The preview surface is modelled separately (see `PrevSys`). -/
structure AppState where
  editorValue : String
  currentDocId : Option Nat
  lastSavedContent : String
  pendingOpenDoc : Option PendingTarget
  saveBusy : Bool
  confirmBusy : Bool
  saveModalVisible : Bool
  confirmModalVisible : Bool
  docTitleInput : String
  saveButtonsDisabled : Bool
  confirmButtonsDisabled : Bool
  sidebarVisible : Bool
  docs : List DocRecord
  nextId : Nat
  autosaveSlot : Option String
  autosaveTimer : Option String
deriving DecidableEq, Repr

/-- app.js `hasUnsavedChanges`: `editor.value !== lastSavedContent`. -/
def hasUnsavedChanges (s : AppState) : Bool :=
  s.editorValue != s.lastSavedContent

/-- app.js `handleEditorInput`, fired on a buffer mutation that set
    `editor.value` to `v`: `debouncedUpdatePreview()` (preview side, modelled
    separately) and `Storage.debouncedSave(editor.value)`, which re-arms the
    autosave debounce timer with the current buffer content. -/
def handleEditorInput (v : String) (s : AppState) : AppState :=
  { s with editorValue := v, autosaveTimer := some v }

/-- The callback of storage.js `debouncedSave`'s `setTimeout` firing:
    `autosaveSave(content)` writes the captured content into the autosave
    slot and the timer is cleared.  A no-op when no timer is armed. -/
def autosaveTimerFire (s : AppState) : AppState :=
  match s.autosaveTimer with
  | some c => { s with autosaveSlot := some c, autosaveTimer := none }
  | none => s

/-- storage.js `autosaveLoad` (exported as `Storage.load`): the slot's
    content, or `''` when the slot is empty. -/
def autosaveLoad (s : AppState) : String :=
  s.autosaveSlot.getD ""

/-- app.js `closeSidebar`. -/
def closeSidebar (s : AppState) : AppState :=
  { s with sidebarVisible := false }

/-- app.js `openConfirmModal`. -/
def openConfirmModal (s : AppState) : AppState :=
  { s with confirmModalVisible := true }

/-- app.js `closeConfirmModal` (after the 2026-02-08 sidebar-bugs fix it only
    hides the modal and does not touch `pendingOpenDoc`). -/
def closeConfirmModal (s : AppState) : AppState :=
  { s with confirmModalVisible := false }

/-- app.js `closeSaveModal`: hide the save modal and clear the title input. -/
def closeSaveModal (s : AppState) : AppState :=
  { s with saveModalVisible := false, docTitleInput := "" }

/-- app.js `loadDocument` (lines 355-362).  Its first statement is
    `Storage.cancelPendingAutosave()`.  storage.js's public API
    (`storagePublicAPI`) does not contain that member, so in the shipped code
    this member access yields `undefined` and the call throws a `TypeError`,
    leaving the rest of the function (buffer replacement, binding update,
    `lastSavedContent` update, sidebar close, preview refresh) unreached.
    The guarded branch transcribes what those statements do — with the
    cancellation effect taken from the repository's race-condition fix
    document (`clearTimeout(saveTimeout); saveTimeout = null`) — so that the
    embedding stays faithful whichever way the membership test goes. -/
def loadDocument (d : DocRecord) (s : AppState) : AppState × Option JsError :=
  if storagePublicAPI.contains "cancelPendingAutosave" then
    (closeSidebar
      { s with autosaveTimer := none, editorValue := d.content,
               currentDocId := some d.id, lastSavedContent := d.content },
     none)
  else
    (s, some (.typeErrorNotAFunction "cancelPendingAutosave"))

/-- app.js `resetToNewDocument` (lines 364-371); same structure as
    `loadDocument` with the empty buffer and the unbound binding. -/
def resetToNewDocument (s : AppState) : AppState × Option JsError :=
  if storagePublicAPI.contains "cancelPendingAutosave" then
    (closeSidebar
      { s with autosaveTimer := none, editorValue := "",
               currentDocId := none, lastSavedContent := "" },
     none)
  else
    (s, some (.typeErrorNotAFunction "cancelPendingAutosave"))

/-- app.js `requestOpenDocument`: with unsaved changes, stash the pending
    target and open the confirm modal; otherwise load directly. -/
def requestOpenDocument (d : DocRecord) (s : AppState) : AppState × Option JsError :=
  if hasUnsavedChanges s then
    (openConfirmModal { s with pendingOpenDoc := some (.doc d) }, none)
  else
    loadDocument d s

/-- app.js `requestNewDocument`: with unsaved changes, stash `'new'` and open
    the confirm modal; otherwise reset directly. -/
def requestNewDocument (s : AppState) : AppState × Option JsError :=
  if hasUnsavedChanges s then
    (openConfirmModal { s with pendingOpenDoc := some .newDoc }, none)
  else
    resetToNewDocument s

/-- app.js `openPendingDoc` (lines 479-486): dispatch on `pendingOpenDoc`,
    then `pendingOpenDoc = null`.  When the dispatched call throws, the
    exception propagates and the clearing statement is never reached. -/
def openPendingDoc (s : AppState) : AppState × Option JsError :=
  match s.pendingOpenDoc with
  | some .newDoc =>
    match resetToNewDocument s with
    | (s', none) => ({ s' with pendingOpenDoc := none }, none)
    | (s', some e) => (s', some e)
  | some (.doc d) =>
    match loadDocument d s with
    | (s', none) => ({ s' with pendingOpenDoc := none }, none)
    | (s', some e) => (s', some e)
  | none => ({ s with pendingOpenDoc := none }, none)

/-- app.js `handleConfirmDiscard`: `closeConfirmModal(); openPendingDoc();`. -/
def handleConfirmDiscard (s : AppState) : AppState × Option JsError :=
  openPendingDoc (closeConfirmModal s)

/-- app.js `handleConfirmCancel`: `closeConfirmModal(); pendingOpenDoc = null;`. -/
def handleConfirmCancel (s : AppState) : AppState :=
  { closeConfirmModal s with pendingOpenDoc := none }

/-! ## Explicit save (save modal) and confirm-resolution save -/

/-- JavaScript `String.prototype.trim()` as used by `handleSaveConfirm`'s
    `docTitleInput.value.trim()`: strip leading and trailing whitespace.
    (A structurally recursive transcription; the exact whitespace set is
    immaterial to the claims.) -/
def jsTrim (s : String) : String :=
  ⟨((s.data.dropWhile Char.isWhitespace).reverse.dropWhile
      Char.isWhitespace).reverse⟩

/-- The store operation initiated by `handleSaveConfirm`'s synchronous prefix,
    together with the `title` and `content` values it captured before
    awaiting (`const content = editor.value`). -/
inductive SaveOp where
  | create (title content : String)
  | update (id : Nat) (title content : String)
deriving DecidableEq, Repr

/-- The synchronous prefix of app.js `handleSaveConfirm` (lines 393-411), up
    to the first `await`: the `saveBusy` re-entrancy guard, the trimmed-title
    check, setting `saveBusy` and disabling the save-modal buttons, capturing
    `editor.value`, and choosing update-vs-create on `currentDocId`.  Returns
    `none` when the invocation no-ops (already busy, or empty title). -/
def handleSaveConfirmSeg1 (s : AppState) : AppState × Option SaveOp :=
  if s.saveBusy then (s, none)
  else
    let title := jsTrim s.docTitleInput
    if title = "" then (s, none)
    else
      ({ s with saveBusy := true, saveButtonsDisabled := true },
       some (match s.currentDocId with
             | some id => .update id title s.editorValue
             | none => .create title s.editorValue))

/-- The continuation of app.js `handleSaveConfirm` after the awaited store
    call settles.  `storeFails` injects a store rejection.  On success:
    `currentDocId = newId` (create case), `lastSavedContent = content`,
    `closeSaveModal()`.  On rejection: the `catch` only alerts.  The `finally`
    block always clears `saveBusy` and re-enables the buttons. -/
def handleSaveConfirmSeg2 (now : Nat) (storeFails : Bool) (op : SaveOp)
    (s : AppState) : AppState :=
  let cleanup := fun (st : AppState) =>
    { st with saveBusy := false, saveButtonsDisabled := false }
  match op with
  | .update id title content =>
    if storeFails then cleanup s
    else
      match updateDocument id title content now s.docs with
      | .error _ => cleanup s
      | .ok docs' =>
        cleanup (closeSaveModal
          { s with docs := docs', lastSavedContent := content })
  | .create title content =>
    if storeFails then cleanup s
    else
      let newDoc : DocRecord :=
        { id := s.nextId, title := title, content := content,
          createdAt := now, updatedAt := now }
      cleanup (closeSaveModal
        { s with docs := s.docs ++ [newDoc], nextId := s.nextId + 1,
                 currentDocId := some s.nextId, lastSavedContent := content })

/-- app.js `handleSaveConfirm` run to completion with no interleaving:
    the synchronous prefix followed by the continuation. -/
def handleSaveConfirm (now : Nat) (storeFails : Bool) (s : AppState) : AppState :=
  match handleSaveConfirmSeg1 s with
  | (s', none) => s'
  | (s', some op) => handleSaveConfirmSeg2 now storeFails op s'

/-- Injected rejections for the store calls awaited by `handleConfirmSave`:
    `getDocument`, `updateDocument`, `saveDocument`. -/
structure StoreInj where
  getFails : Bool
  updateFails : Bool
  createFails : Bool
deriving DecidableEq, Repr

/-- app.js `handleConfirmSave` (lines 434-467) run to completion.
    `autoTitle` stands for `getAutoTitle()`'s DOM-derived result (first
    heading of the rendered preview, else first non-blank editor line with
    leading `#` stripped, else `'Untitled'`); none of the verified claims
    constrain its value, so it is passed in.  Structure: the `confirmBusy`
    guard; busy/disable; capture `content = editor.value`; bound branch:
    `getDocument` (title of the existing record, else `autoTitle`) then
    `updateDocument`; unbound branch: `saveDocument` then
    `currentDocId = newId`; on success `lastSavedContent = content`;
    `catch`: alert, `closeConfirmModal()`, return (the pending target is NOT
    cleared); `finally`: clear `confirmBusy`, re-enable the three buttons;
    after the `try` (success only): `closeConfirmModal(); openPendingDoc()`. -/
def handleConfirmSave (autoTitle : String) (now : Nat) (inj : StoreInj)
    (s : AppState) : AppState × Option JsError :=
  if s.confirmBusy then (s, none)
  else
    let s1 := { s with confirmBusy := true, confirmButtonsDisabled := true }
    let content := s1.editorValue
    let cleanup := fun (st : AppState) =>
      { st with confirmBusy := false, confirmButtonsDisabled := false }
    let catchExit := fun (st : AppState) =>
      (cleanup (closeConfirmModal st), (none : Option JsError))
    match s1.currentDocId with
    | some id =>
      if inj.getFails then catchExit s1
      else
        let t := match findDoc s1.docs id with
                 | some d => d.title
                 | none => autoTitle
        if inj.updateFails then catchExit s1
        else
          match updateDocument id t content now s1.docs with
          | .error _ => catchExit s1
          | .ok docs' =>
            openPendingDoc (closeConfirmModal
              (cleanup { s1 with docs := docs', lastSavedContent := content }))
    | none =>
      if inj.createFails then catchExit s1
      else
        let newDoc : DocRecord :=
          { id := s1.nextId, title := autoTitle, content := content,
            createdAt := now, updatedAt := now }
        openPendingDoc (closeConfirmModal
          (cleanup { s1 with docs := s1.docs ++ [newDoc],
                             nextId := s1.nextId + 1,
                             currentDocId := some s1.nextId,
                             lastSavedContent := content }))

/-! ## Delete and startup content restoration -/

/-- app.js `handleDeleteDocument` (lines 540-553): after the browser
    `confirm(...)` (`confirmed`), await `Storage.deleteDocument(id)`
    (`deleteFails` injects a rejection, which leaves all state untouched);
    on success, when the deleted id is the bound one, unbind and reset
    `lastSavedContent` to `''` (the buffer itself is left untouched). -/
def handleDeleteDocument (id : Nat) (confirmed deleteFails : Bool)
    (s : AppState) : AppState :=
  if !confirmed then s
  else if deleteFails then s
  else
    let s' := { s with docs := deleteDocumentStore id s.docs }
    if s'.currentDocId = some id then
      { s' with currentDocId := none, lastSavedContent := "" }
    else s'

/-- app.js `loadContent` (lines 657-666), run at startup: read the autosave
    slot (`Storage.load()`); a non-empty result (JS truthiness) becomes the
    buffer, otherwise the built-in sample document (`sampleMarkdown`, whose
    exact text is immaterial to every claim and is therefore a parameter);
    then `lastSavedContent = editor.value`. -/
def loadContent (sampleMarkdown : String) (s : AppState) : AppState :=
  let saved := autosaveLoad s
  let v := if saved ≠ "" then saved else sampleMarkdown
  { s with editorValue := v, lastSavedContent := v }

/-! ## Preview scheduler and generation counter (app.js `updatePreview`,
markdown.js `MarkdownParser.parse`)

`updatePreview` (app.js lines 167-180) captures `generation = ++previewGeneration`
and `content = editor.value`, then awaits `MarkdownParser.parse(content, preview)`.
`parse` (markdown.js lines 144-167) synchronously computes the HTML and assigns
`container.innerHTML = html` BEFORE its first await (`renderMermaid`), then
resumes after the awaits to run `Prism.highlightAllUnder(container)` against the
live container.  On rejection, `updatePreview`'s `catch` compares the captured
generation with the live counter and, only when equal, writes the error markup.
The external rendering engines are abstracted: the surface records which
invocation's markdown is displayed, and every DOM write is logged together with
the writer's captured generation and the live counter at write time. -/

/-- A DOM write against the live preview surface: the initial synchronous
    `container.innerHTML = html` of `parse`, the error markup written by
    `updatePreview`'s `catch`, or the post-await
    `Prism.highlightAllUnder(container)` step of `parse`. -/
inductive WriteKind where
  | setContent
  | setError
  | highlight
deriving DecidableEq, Repr

/-- A log entry for one DOM write: the live `previewGeneration` at the moment
    of the write, the writing invocation's captured generation, and the kind
    of write. -/
structure WriteEntry where
  liveAt : Nat
  writer : Nat
  kind : WriteKind
deriving DecidableEq, Repr

/-- What the preview surface displays. -/
inductive SurfaceView where
  | rendered (source : String)
  | errorMessage
deriving DecidableEq, Repr

/-- One `updatePreview` invocation: the buffer content it will render,
    whether its awaited rendering pipeline rejects, and its progress
    (not yet started / suspended at the await with captured generation `g` /
    completed). -/
inductive TaskPhase where
  | notStarted
  | inFlight (g : Nat)
  | finished
deriving DecidableEq, Repr

structure PTask where
  content : String
  fails : Bool
  phase : TaskPhase
deriving DecidableEq, Repr

/-- The preview subsystem: the live generation counter, the surface, the
    write log, and the pool of `updatePreview` invocations. -/
structure PrevSys where
  generation : Nat
  surface : SurfaceView
  log : List WriteEntry
  tasks : List PTask
deriving DecidableEq, Repr

/-- The synchronous prefix of `updatePreview` invocation `i`:
    `const generation = ++previewGeneration`, then `parse`'s synchronous part
    assigns `container.innerHTML = html` (logged as a `setContent` write while
    the invocation is still current), then the task suspends at
    `await renderMermaid(container)`. -/
def startTask (i : Nat) (sys : PrevSys) : PrevSys :=
  match sys.tasks[i]? with
  | some t =>
    if t.phase = .notStarted then
      let g := sys.generation + 1
      { generation := g,
        surface := .rendered t.content,
        log := sys.log ++ [{ liveAt := g, writer := g, kind := .setContent }],
        tasks := sys.tasks.set i { t with phase := .inFlight g } }
    else sys
  | none => sys

/-- The markup written by `updatePreview`'s `catch` branch:
    `'<p class="error">Preview error occurred.</p>'`. -/
def previewErrorHtml : String := "<p class=\"error\">Preview error occurred.</p>"

/-- The resumption of `updatePreview` invocation `i` after its awaited
    pipeline settles.  Rejection: `catch` checks
    `generation !== previewGeneration` and returns when stale, otherwise
    writes the error markup.  Success: no generation comparison is made; the
    stale mermaid writes land on nodes detached by the newer invocation's
    synchronous `innerHTML` assignment (hence do not touch the surface), but
    `Prism.highlightAllUnder(container)` still runs against the live
    container and is logged as a `highlight` write. -/
def completeTask (i : Nat) (sys : PrevSys) : PrevSys :=
  match sys.tasks[i]? with
  | some t =>
    match t.phase with
    | .inFlight g =>
      let sys' := { sys with tasks := sys.tasks.set i { t with phase := .finished } }
      if t.fails then
        if g ≠ sys'.generation then sys'
        else
          { sys' with surface := .errorMessage,
                      log := sys'.log ++
                        [{ liveAt := sys'.generation, writer := g, kind := .setError }] }
      else
        { sys' with log := sys'.log ++
            [{ liveAt := sys'.generation, writer := g, kind := .highlight }] }
    | _ => sys
  | none => sys

/-- A scheduler action: start invocation `i`, or settle invocation `i`'s
    awaited pipeline. -/
inductive PrevAction where
  | start (i : Nat)
  | complete (i : Nat)
deriving DecidableEq, Repr

def prevStep (sys : PrevSys) : PrevAction → PrevSys
  | .start i => startTask i sys
  | .complete i => completeTask i sys

/-- Run a sequence of scheduler actions (one interleaving of the event loop). -/
def runPreview (sys : PrevSys) : List PrevAction → PrevSys
  | [] => sys
  | a :: rest => runPreview (prevStep sys a) rest

/-- The write-log entries made by an invocation that had already been
    superseded at the moment of the write. -/
def staleWrites (log : List WriteEntry) : List WriteEntry :=
  log.filter (fun e => e.writer != e.liveAt)

/-- Content and error writes are the ones that replace what the preview
    surface displays. -/
def contentOrError (e : WriteEntry) : Prop :=
  e.kind = .setContent ∨ e.kind = .setError

instance : DecidablePred contentOrError := fun e =>
  inferInstanceAs (Decidable (e.kind = .setContent ∨ e.kind = .setError))

/-- The invariant actually maintained by the code: every surface-replacing
    write (`setContent` or `setError`) is made while its writer is still the
    current generation. -/
def currentWritesOnly (sys : PrevSys) : Prop :=
  ∀ e ∈ sys.log, contentOrError e → e.writer = e.liveAt

/-! ## Fixtures and auxiliary predicates used by the claim statements -/

/-- A fresh controller state: empty unbound buffer, no modals, empty store. -/
def baseState : AppState :=
  { editorValue := "", currentDocId := none, lastSavedContent := "",
    pendingOpenDoc := none, saveBusy := false, confirmBusy := false,
    saveModalVisible := false, confirmModalVisible := false,
    docTitleInput := "", saveButtonsDisabled := false,
    confirmButtonsDisabled := false, sidebarVisible := false,
    docs := [], nextId := 1, autosaveSlot := none, autosaveTimer := none }

/-- A saved document used as a concrete navigation target. -/
def targetDoc : DocRecord :=
  { id := 1, title := "Doc1", content := "NEW", createdAt := 10, updatedAt := 10 }

/-- The store call awaited by `handleConfirmSave` rejects — or, in the bound
    branch, the bound record is missing, so `updateDocument` rejects with
    `Document not found` (treated by the spec as a `StoreFailure` variant). -/
def confirmSaveStoreRejects (inj : StoreInj) (s : AppState) : Prop :=
  match s.currentDocId with
  | none => inj.createFails = true
  | some id => inj.getFails = true ∨ inj.updateFails = true ∨ findDoc s.docs id = none

instance (inj : StoreInj) (s : AppState) : Decidable (confirmSaveStoreRejects inj s) := by
  unfold confirmSaveStoreRejects
  match s.currentDocId with
  | none => exact inferInstance
  | some id => exact inferInstance

/-- The explicit save has an existing target when bound (so a non-injected
    `updateDocument` succeeds). -/
def explicitSaveTargetExists (s : AppState) : Prop :=
  ∀ id, s.currentDocId = some id → (findDoc s.docs id).isSome = true

instance (s : AppState) : Decidable (explicitSaveTargetExists s) := by
  unfold explicitSaveTargetExists
  exact inferInstance

/-- A preview-system start state with two pending `updatePreview` invocations
    (buffer contents `"a"` then `"b"`), neither of which rejects. -/
def prevInit2 : PrevSys :=
  { generation := 0, surface := .rendered "", log := [],
    tasks := [{ content := "a", fails := false, phase := .notStarted },
              { content := "b", fails := false, phase := .notStarted }] }

/-- Scenario state for C3: unbound buffer `A2` with unsaved changes over
    `lastSavedContent = "A"`, the confirm dialog open and the pending target
    set to `targetDoc`. -/
def confirmPendingState : AppState :=
  { baseState with
    editorValue := "A2",
    lastSavedContent := "A",
    pendingOpenDoc := some (.doc targetDoc),
    confirmModalVisible := true }

/-- Scenario state for C6: buffer `OLD`, pending target `targetDoc`
    (content `NEW`) awaiting the Discard choice in the open confirm dialog. -/
def discardPendingState : AppState :=
  { baseState with
    editorValue := "OLD",
    lastSavedContent := "A",
    docs := [targetDoc],
    pendingOpenDoc := some (.doc targetDoc),
    confirmModalVisible := true }

/-- Scenario state for C7: a session whose autosave slot holds `draft` while
    `lastSavedContent` is `X`. -/
def autosaveRecoveryState : AppState :=
  { baseState with
    autosaveSlot := some "draft",
    lastSavedContent := "X",
    editorValue := "X" }

/-- Scenario state for C7: `targetDoc` (id 1) is the bound document. -/
def boundToTargetState : AppState :=
  { baseState with
    currentDocId := some 1,
    lastSavedContent := "X",
    editorValue := "X",
    docs := [targetDoc] }

/-- Scenario state for C4/C5/C8: unbound buffer with the save modal open and
    a non-blank title typed into the title input. -/
def saveModalReadyState : AppState :=
  { baseState with
    saveModalVisible := true,
    docTitleInput := "T" }

/-! # Theorems settling the claims -/

/-- C9: for every stored document collection, `list()` (`getAllDocuments`)
    returns all records ordered by `updatedAt` descending, and
    `search(query)` (`searchDocuments`) returns exactly the records whose
    title contains the query as a case-insensitive substring, in the same
    `updatedAt`-descending order. -/
theorem C9_list_search_ordered (docs : List DocRecord) (query : String) :
    (getAllDocuments docs).Perm docs ∧
    (getAllDocuments docs).Sorted updatedAtDesc ∧
    (searchDocuments query docs).Perm (docs.filter (titleMatches query)) ∧
    (searchDocuments query docs).Sorted updatedAtDesc ∧
    (∀ d, d ∈ searchDocuments query docs ↔
      d ∈ docs ∧ (query.toLower).data <:+: (d.title.toLower).data) := by
  refine ⟨List.perm_insertionSort _ _, List.sorted_insertionSort _ _,
    List.perm_insertionSort _ _, List.sorted_insertionSort _ _, fun d => ?_⟩
  rw [searchDocuments, (List.perm_insertionSort _ _).mem_iff, List.mem_filter]
  simp [titleMatches]

/-- C10: for an existing record, `updateDocument` changes only `title`,
    `content`, `updatedAt` and `renameDocument` only `title`, `updatedAt`,
    both keeping `id` and `createdAt` and leaving every other record
    untouched; for an absent id both reject with `Document not found`,
    leaving the store unchanged. -/
theorem C10_update_rename_frame (docs : List DocRecord) (id : Nat)
    (title content newTitle : String) (now : Nat) :
    (findDoc docs id = none →
      updateDocument id title content now docs = .error "Document not found" ∧
      renameDocument id newTitle now docs = .error "Document not found") ∧
    ((findDoc docs id).isSome = true →
      updateDocument id title content now docs =
        .ok (docs.map (updRecord id title content now)) ∧
      renameDocument id newTitle now docs =
        .ok (docs.map (renameRecord id newTitle now))) ∧
    (∀ d : DocRecord,
      (updRecord id title content now d).id = d.id ∧
      (updRecord id title content now d).createdAt = d.createdAt ∧
      (renameRecord id newTitle now d).id = d.id ∧
      (renameRecord id newTitle now d).createdAt = d.createdAt ∧
      (renameRecord id newTitle now d).content = d.content ∧
      (d.id ≠ id →
        updRecord id title content now d = d ∧
        renameRecord id newTitle now d = d) ∧
      (d.id = id →
        (updRecord id title content now d).title = title ∧
        (updRecord id title content now d).content = content ∧
        (updRecord id title content now d).updatedAt = now ∧
        (renameRecord id newTitle now d).title = newTitle ∧
        (renameRecord id newTitle now d).updatedAt = now)) := by
  refine ⟨fun h => ?_, fun h => ?_, fun d => ?_⟩
  · rw [updateDocument, renameDocument, h]
    exact ⟨rfl, rfl⟩
  · rcases Option.isSome_iff_exists.mp h with ⟨d, hd⟩
    rw [updateDocument, renameDocument, hd]
    exact ⟨rfl, rfl⟩
  · by_cases hid : d.id = id <;>
      simp [updRecord, renameRecord, hid]

/-- C10 witness: a concrete two-record store; updating/renaming id 1
    succeeds with the expected frame, and id 5 is rejected. -/
theorem C10_update_rename_frame_witness :
    updateDocument 5 "T" "C" 100
        [{ id := 1, title := "Alpha", content := "a", createdAt := 3, updatedAt := 4 }]
      = .error "Document not found" ∧
    updateDocument 1 "T" "C" 100
        [{ id := 1, title := "Alpha", content := "a", createdAt := 3, updatedAt := 4 }]
      = .ok [{ id := 1, title := "T", content := "C", createdAt := 3, updatedAt := 100 }] := by
  have h1 := C10_update_rename_frame
      [{ id := 1, title := "Alpha", content := "a", createdAt := 3, updatedAt := 4 }]
      5 "T" "C" "N" 100
  have h2 := C10_update_rename_frame
      [{ id := 1, title := "Alpha", content := "a", createdAt := 3, updatedAt := 4 }]
      1 "T" "C" "N" 100
  exact ⟨(h1.1 (by decide)).1, by
    have := (h2.2.1 (by decide)).1
    simpa [updRecord] using this⟩

/-- C1 (code bug): app.js calls `Storage.cancelPendingAutosave()` before every
    wholesale buffer replacement, but storage.js's public API does not export
    that member, so the call throws and the pending autosave timer is never
    cancelled.  Concrete interleaving: type `OLD` (arming the debounced
    autosave), request the saved target document, click Discard (the load
    throws the `TypeError`), then the timer fires — the autosave slot ends up
    holding the pre-load buffer content `OLD`, which the claim says can never
    happen. -/
theorem C1_stale_autosave_lands :
    storagePublicAPI.contains "cancelPendingAutosave" = false ∧
    (let s1 := handleEditorInput "OLD" baseState
     let r2 := requestOpenDocument targetDoc s1
     let r3 := handleConfirmDiscard r2.1
     r2.2 = none ∧
     r2.1.confirmModalVisible = true ∧
     r2.1.autosaveTimer = some "OLD" ∧
     r3.2 = some (.typeErrorNotAFunction "cancelPendingAutosave") ∧
     r3.1.autosaveTimer = some "OLD" ∧
     (autosaveTimerFire r3.1).autosaveSlot = some "OLD" ∧
     r3.1.editorValue = "OLD") := by
  decide

/-- C3 (code bug): when the save-then-open store call rejects,
    `handleConfirmSave`'s `catch` closes the confirm dialog and returns
    without clearing `pendingOpenDoc`, so the pending navigation target
    survives a state in which no confirmation dialog is visible — violating
    the claimed invariant. -/
theorem C3_pending_survives_dialog_close :
    (let r := handleConfirmSave "T" 9
        { getFails := false, updateFails := false, createFails := true }
        confirmPendingState
     r.2 = none ∧
     r.1.confirmModalVisible = false ∧
     r.1.pendingOpenDoc = some (.doc targetDoc) ∧
     r.1.docs = [] ∧
     r.1.lastSavedContent = "A") := by
  decide

/-- C6 (code bug): choosing Discard with a pending saved-document target does
    not replace the buffer with the target's content: `openPendingDoc` calls
    `loadDocument`, whose first statement
    `Storage.cancelPendingAutosave()` throws (the member is missing from the
    storage API), so the buffer, the binding and `lastSavedContent` are left
    unchanged and the pending target is not cleared. -/
theorem C6_discard_does_not_restore :
    (let r := handleConfirmDiscard discardPendingState
     r.2 = some (.typeErrorNotAFunction "cancelPendingAutosave") ∧
     targetDoc.content = "NEW" ∧
     r.1.editorValue = "OLD" ∧
     r.1.currentDocId = none ∧
     r.1.lastSavedContent = "A" ∧
     r.1.pendingOpenDoc = some (.doc targetDoc) ∧
     r.1.confirmModalVisible = false) := by
  decide

/-- C7 counterexample: at startup `loadContent` assigns `lastSavedContent`
    from the content read out of the autosave slot (`Storage.load()`), and
    deleting the currently-bound document resets `lastSavedContent` to the
    empty string — two assignments that are neither a successful document
    load nor a successful explicit save, the second unrelated to any load or
    save and the first caused precisely by loading the autosave slot. -/
theorem C7_counterexample_lastSaved_from_autosave :
    ((loadContent "sample" autosaveRecoveryState).lastSavedContent = "draft" ∧
     autosaveRecoveryState.lastSavedContent ≠ "draft" ∧
     autosaveRecoveryState.autosaveSlot = some "draft") ∧
    ((handleDeleteDocument 1 true false boundToTargetState).lastSavedContent = "" ∧
     boundToTargetState.lastSavedContent = "X") := by
  decide

/-- C2 counterexample: two successful `updatePreview` invocations overlap;
    the first is superseded (its captured generation 1 differs from the live
    counter 2) yet on completion it performs a DOM write against the live
    preview container (`Prism.highlightAllUnder`), with no
    generation comparison discarding it — so a superseded render is not
    inert, contradicting the claim that every completion compares the
    captured generation and a superseded render never mutates the DOM/UI. -/
theorem C2_counterexample_stale_write :
    (let final := runPreview prevInit2 [.start 0, .start 1, .complete 0]
     staleWrites final.log = [{ liveAt := 2, writer := 1, kind := .highlight }] ∧
     final.generation = 2 ∧
     (final.tasks[0]?.map (fun t => t.phase)) = some .finished) := by
  decide


/-- One event-loop step preserves the currency of surface-replacing writes:
    `startTask` writes content under the generation it has just made current,
    and `completeTask` writes the error markup only after the `catch`'s
    generation comparison succeeds. -/
theorem prevStep_currentWritesOnly (sys : PrevSys) (a : PrevAction)
    (h : currentWritesOnly sys) : currentWritesOnly (prevStep sys a) := by
  unfold currentWritesOnly at h ⊢
  intro e he hce
  cases a with
  | start i =>
    simp only [prevStep, startTask] at he
    split at he
    · split at he
      · rcases List.mem_append.mp he with h1 | h2
        · exact h e h1 hce
        · rw [List.mem_singleton.mp h2]
      · exact h e he hce
    · exact h e he hce
  | complete i =>
    simp only [prevStep, completeTask] at he
    split at he
    · split at he
      · split at he
        · split at he
          · exact h e he hce
          · rename_i hne
            rcases List.mem_append.mp he with h1 | h2
            · exact h e h1 hce
            · rw [List.mem_singleton.mp h2]
              simpa using not_ne_iff.mp hne
        · rcases List.mem_append.mp he with h1 | h2
          · exact h e h1 hce
          · rw [List.mem_singleton.mp h2] at hce
            rcases hce with hk | hk <;> simp [contentOrError] at hk
      · exact h e he hce
    · exact h e he hce

/-- C2 (amended): a surface-replacing write (`innerHTML` content assignment
    or error markup) is only ever performed while the writing invocation is
    still the current generation — the content write happens synchronously at
    invocation start and the error write is guarded by the `catch`'s
    generation comparison.  The comparison exists only on the error path: a
    superseded successful invocation, instead of comparing and discarding,
    relies on the newer invocation's synchronous `innerHTML` assignment and
    still performs its late highlighting step against the live container
    (exhibited by the stale-write counterexample). -/
theorem C2_current_generation_writes (sys : PrevSys) (acts : List PrevAction)
    (h : currentWritesOnly sys) : currentWritesOnly (runPreview sys acts) := by
  induction acts generalizing sys with
  | nil => exact h
  | cons a rest ih => exact ih (prevStep sys a) (prevStep_currentWritesOnly sys a h)

/-- C2 witness: along the concrete overlapping schedule, every content and
    error write was made by the then-current generation. -/
theorem C2_current_generation_writes_witness :
    currentWritesOnly
      (runPreview prevInit2 [.start 0, .start 1, .complete 0, .complete 1]) := by
  refine C2_current_generation_writes prevInit2 _ ?_
  intro e he hce
  simp [prevInit2] at he

/-- C4: every transition into the busy state first checks its own action
    class's busy flag and no-ops when it is already set (`saveBusy` guards
    the save-modal save, `confirmBusy` independently guards the
    confirm-modal resolution); consequently double-invoking the explicit
    save within one busy window, starting from an unbound buffer, creates
    exactly one document record. -/
theorem C4_busy_guard_single_record (s : AppState) (now : Nat)
    (hbusy : s.saveBusy = false) (hunbound : s.currentDocId = none)
    (htitle : ¬ jsTrim s.docTitleInput = "") :
    (∀ s' : AppState, s'.saveBusy = true → handleSaveConfirmSeg1 s' = (s', none)) ∧
    (∀ (s' : AppState) (t : String) (n : Nat) (inj : StoreInj),
        s'.confirmBusy = true → handleConfirmSave t n inj s' = (s', none)) ∧
    ((handleSaveConfirmSeg1 s).1.saveBusy = true ∧
     handleSaveConfirmSeg1 (handleSaveConfirmSeg1 s).1 =
       ((handleSaveConfirmSeg1 s).1, none) ∧
     (∀ op, (handleSaveConfirmSeg1 s).2 = some op →
        (handleSaveConfirmSeg2 now false op (handleSaveConfirmSeg1 s).1).docs.length =
          s.docs.length + 1)) := by
  refine ⟨fun s' hb => ?_, fun s' t n inj hb => ?_, ?_, ?_, fun op hop => ?_⟩
  · simp [handleSaveConfirmSeg1, hb]
  · simp [handleConfirmSave, hb]
  · simp [handleSaveConfirmSeg1, hbusy, htitle]
  · simp [handleSaveConfirmSeg1, hbusy, htitle]
  · simp only [handleSaveConfirmSeg1, hbusy, htitle, hunbound] at hop
    simp only [Bool.false_eq_true, if_false, if_neg htitle] at hop
    have : op = .create (jsTrim s.docTitleInput) s.editorValue := by
      cases hop' : op <;> simp_all
    subst this
    simp [handleSaveConfirmSeg1, handleSaveConfirmSeg2, hbusy, htitle, closeSaveModal]

/-- C4 witness: concrete double-invoke of the explicit save from the unbound
    save-modal state — the second synchronous prefix is a no-op and exactly
    one record is created. -/
theorem C4_busy_guard_single_record_witness :
    handleSaveConfirmSeg1 (handleSaveConfirmSeg1 saveModalReadyState).1 =
      ((handleSaveConfirmSeg1 saveModalReadyState).1, none) ∧
    (handleSaveConfirmSeg2 7 false (.create "T" "")
        (handleSaveConfirmSeg1 saveModalReadyState).1).docs.length =
      saveModalReadyState.docs.length + 1 := by
  have h := C4_busy_guard_single_record saveModalReadyState 7 rfl rfl (by decide)
  refine ⟨h.2.2.2.1, ?_⟩
  have h2 := h.2.2.2.2 (.create "T" "") (by decide)
  simpa using h2

/-- C5: when the persistent-store call behind an explicit save or a
    confirm-resolution save rejects, the triggering state transition is not
    applied — `lastSavedContent`, `currentDocId`, the buffer and the document
    store keep their pre-operation values — and the guaranteed-cleanup step
    clears the busy flag and re-enables the modal buttons. -/
theorem C5_store_rejection_preserves_state (s : AppState) (autoTitle : String)
    (now : Nat) (inj : StoreInj) :
    (s.saveBusy = false → ¬ jsTrim s.docTitleInput = "" →
      (handleSaveConfirm now true s).lastSavedContent = s.lastSavedContent ∧
      (handleSaveConfirm now true s).currentDocId = s.currentDocId ∧
      (handleSaveConfirm now true s).editorValue = s.editorValue ∧
      (handleSaveConfirm now true s).docs = s.docs ∧
      (handleSaveConfirm now true s).saveBusy = false ∧
      (handleSaveConfirm now true s).saveButtonsDisabled = false) ∧
    (s.confirmBusy = false → confirmSaveStoreRejects inj s →
      (handleConfirmSave autoTitle now inj s).1.lastSavedContent = s.lastSavedContent ∧
      (handleConfirmSave autoTitle now inj s).1.currentDocId = s.currentDocId ∧
      (handleConfirmSave autoTitle now inj s).1.editorValue = s.editorValue ∧
      (handleConfirmSave autoTitle now inj s).1.docs = s.docs ∧
      (handleConfirmSave autoTitle now inj s).1.confirmBusy = false ∧
      (handleConfirmSave autoTitle now inj s).1.confirmButtonsDisabled = false ∧
      (handleConfirmSave autoTitle now inj s).2 = none) := by
  constructor
  · intro hb ht
    simp only [handleSaveConfirm, handleSaveConfirmSeg1, hb, Bool.false_eq_true,
      if_false, if_neg ht]
    cases hid : s.currentDocId <;>
      simp [handleSaveConfirmSeg2, hid]
  · intro hb hrej
    unfold confirmSaveStoreRejects at hrej
    cases hid : s.currentDocId with
    | none =>
      rw [hid] at hrej
      simp [handleConfirmSave, hb, hid, hrej, closeConfirmModal]
    | some id =>
      rw [hid] at hrej
      rcases hrej with hg | hu | hf
      · simp [handleConfirmSave, hb, hid, hg, closeConfirmModal]
      · cases hg : inj.getFails <;>
          simp [handleConfirmSave, hb, hid, hg, hu, closeConfirmModal]
      · cases hg : inj.getFails <;>
          cases hu : inj.updateFails <;>
            simp [handleConfirmSave, hb, hid, hg, hu, hf, updateDocument,
              closeConfirmModal]

/-- C5 witness: concrete rejected saves — an explicit save whose
    `saveDocument` rejects, and a Save & Open whose create rejects — leave
    `lastSavedContent`, the binding, the buffer and the store untouched with
    the controls re-enabled. -/
theorem C5_store_rejection_preserves_state_witness :
    (handleSaveConfirm 7 true saveModalReadyState).lastSavedContent = "" ∧
    (handleSaveConfirm 7 true saveModalReadyState).currentDocId = none ∧
    (handleSaveConfirm 7 true saveModalReadyState).docs = [] ∧
    (handleSaveConfirm 7 true saveModalReadyState).saveBusy = false ∧
    (handleConfirmSave "T" 7
        { getFails := false, updateFails := false, createFails := true }
        confirmPendingState).1.lastSavedContent = "A" ∧
    (handleConfirmSave "T" 7
        { getFails := false, updateFails := false, createFails := true }
        confirmPendingState).1.confirmBusy = false := by
  have h1 := C5_store_rejection_preserves_state saveModalReadyState "T" 7
    { getFails := false, updateFails := false, createFails := true }
  have h2 := C5_store_rejection_preserves_state confirmPendingState "T" 7
    { getFails := false, updateFails := false, createFails := true }
  have ha := h1.1 rfl (by decide)
  have hbp := h2.2 rfl (by decide)
  exact ⟨ha.1, ha.2.1.trans rfl, ha.2.2.2.1, ha.2.2.2.2.1,
    hbp.1.trans rfl, hbp.2.2.2.2.1⟩

/-- C7 (amended): `lastSavedContent` is assigned by successful explicit
    saves, and additionally by the startup restoration `loadContent` — which
    takes its value from the autosave slot when it is non-empty — and by
    deleting the currently-bound document (reset to the empty string).
    Autosave writes themselves (the debounce timer firing) and buffer input
    never modify it, and deletes of non-current records or failed/declined
    deletes leave it unchanged. -/
theorem C7_lastSaved_assignment_sites (s : AppState) (v sample : String)
    (id : Nat) :
    (autosaveTimerFire s).lastSavedContent = s.lastSavedContent ∧
    (handleEditorInput v s).lastSavedContent = s.lastSavedContent ∧
    (handleConfirmCancel s).lastSavedContent = s.lastSavedContent ∧
    (loadContent sample s).lastSavedContent =
      (if autosaveLoad s ≠ "" then autosaveLoad s else sample) ∧
    (s.currentDocId = some id →
      (handleDeleteDocument id true false s).lastSavedContent = "") ∧
    (¬ s.currentDocId = some id →
      (handleDeleteDocument id true false s).lastSavedContent =
        s.lastSavedContent) ∧
    (handleDeleteDocument id true true s).lastSavedContent =
      s.lastSavedContent ∧
    (handleDeleteDocument id false false s).lastSavedContent =
      s.lastSavedContent := by
  refine ⟨?_, rfl, rfl, rfl, fun hcur => ?_, fun hcur => ?_, rfl, rfl⟩
  · unfold autosaveTimerFire
    cases s.autosaveTimer <;> rfl
  · simp [handleDeleteDocument, hcur]
  · simp [handleDeleteDocument, hcur]

/-- C7 amended-claim witness: concrete startup restoration from a non-empty
    autosave slot and a delete of the bound document. -/
theorem C7_lastSaved_assignment_sites_witness :
    (loadContent "sample" autosaveRecoveryState).lastSavedContent = "draft" ∧
    (handleDeleteDocument 1 true false boundToTargetState).lastSavedContent = "" ∧
    (autosaveTimerFire boundToTargetState).lastSavedContent = "X" := by
  have h1 := C7_lastSaved_assignment_sites autosaveRecoveryState "v" "sample" 1
  have h2 := C7_lastSaved_assignment_sites boundToTargetState "v" "sample" 1
  refine ⟨h1.2.2.2.1.trans (by decide), h2.2.2.2.2.1 (by decide), h2.1.trans rfl⟩

/-- C8: `hasUnsavedChanges()` returns exactly the inequality of the buffer
    and `lastSavedContent` under exact content comparison with no
    normalization; it is false immediately after the successful startup load
    and immediately after a successful explicit save, and a buffer mutation
    from that just-loaded/just-saved state makes it true. -/
theorem C8_hasUnsavedChanges_exact (s s2 : AppState) (sample : String)
    (now : Nat) (hb : s2.saveBusy = false)
    (ht : ¬ jsTrim s2.docTitleInput = "")
    (hex : explicitSaveTargetExists s2) :
    (hasUnsavedChanges s = true ↔ s.editorValue ≠ s.lastSavedContent) ∧
    hasUnsavedChanges (loadContent sample s) = false ∧
    hasUnsavedChanges (handleSaveConfirm now false s2) = false ∧
    (∀ s3 : AppState, s3.editorValue = s3.lastSavedContent →
      ∀ w : String, w ≠ s3.editorValue →
        hasUnsavedChanges (handleEditorInput w s3) = true) := by
  refine ⟨?_, ?_, ?_, fun s3 heq w hw => ?_⟩
  · simp [hasUnsavedChanges]
  · simp [hasUnsavedChanges, loadContent]
  · unfold explicitSaveTargetExists at hex
    simp only [handleSaveConfirm, handleSaveConfirmSeg1, hb, Bool.false_eq_true,
      if_false, if_neg ht]
    cases hid : s2.currentDocId with
    | none => simp [handleSaveConfirmSeg2, hasUnsavedChanges, closeSaveModal]
    | some id =>
      have hsome := hex id hid
      rcases Option.isSome_iff_exists.mp hsome with ⟨d, hd⟩
      simp [handleSaveConfirmSeg2, hasUnsavedChanges, closeSaveModal,
        updateDocument, hd]
  · simp [hasUnsavedChanges, handleEditorInput, heq, bne_iff_ne]
    exact fun hcontra => hw (hcontra.trans heq.symm)

/-- C8 witness: from the unbound save-modal state a successful explicit save
    makes `hasUnsavedChanges` false, and mutating the buffer afterwards makes
    it true. -/
theorem C8_hasUnsavedChanges_exact_witness :
    hasUnsavedChanges (handleSaveConfirm 7 false saveModalReadyState) = false ∧
    hasUnsavedChanges (loadContent "sample" baseState) = false ∧
    hasUnsavedChanges
      (handleEditorInput "edited"
        (loadContent "sample" baseState)) = true := by
  have h := C8_hasUnsavedChanges_exact baseState saveModalReadyState "sample" 7
    rfl (by decide) (by intro id hid; cases hid)
  refine ⟨h.2.2.1, h.2.1, ?_⟩
  exact h.2.2.2 (loadContent "sample" baseState) rfl "edited" (by decide)
